import Mathlib

/-
Verification of the STM32CubeMX configuration validator
(scripts/validate_cubemx_config.py).

The script is a single-pass linter over a flat `key=value` file:
a loader builds a string-to-string mapping, five checks compare
selected keys against a static requirements table and append
human-readable messages to an error list and a warning list, and
`main` turns the outcome into a process exit code.

Shallow embedding conventions:
- the loaded configuration (a Python dict) is a function
  `String → Option String`; insertion is functional update, so a
  later insertion of the same key overwrites an earlier one exactly
  as a dict assignment does;
- each `validate_*` method appends to the two shared lists
  `self.errors` / `self.warnings`; here each check returns the pair
  of lists it appends, and `run_checks` concatenates them in the
  order the methods run, which yields the same final lists;
- Python exceptions during loading are modelled by the `LoadResult`
  inductive consumed by `main_exit_code`;
- Python `int(...)` on a stripped decimal string is modelled by
  `py_int` (ASCII digits, optional sign, underscore separators);
  the script only ever parses ASCII decimal values.
-/

set_option autoImplicit false

/-- Static requirements table: the `dma` entry of `REQUIREMENTS`. -/
structure DmaRequirements where
  UART_RX_MODE : String
  UART_RX_PRIORITY : String
  UART_TX_MODE : String
  UART_TX_PRIORITY : String
  SPI_MODE : String
  ADC_MODE : String

/-- Static requirements table: the `interrupts` entry of `REQUIREMENTS`. -/
structure InterruptRequirements where
  DMA_PREEMPT : String
  DMA_SUB : String
  PERIPHERAL_PREEMPT : String
  PERIPHERAL_SUB : String

/-- Static requirements table: the `clock` entry of `REQUIREMENTS`. -/
structure ClockRequirements where
  APB1_MIN : Int
  APB1_MAX : Int
  APB2_MIN : Int
  APB2_MAX : Int

/-- Static requirements table: the `can` entry of `REQUIREMENTS`. -/
structure CanRequirements where
  BAUDRATE : Int
  AUTO_RETRANSMIT : String
  MODE : String

/-- The whole static `REQUIREMENTS` table. -/
structure PlatformRequirements where
  dma : DmaRequirements
  interrupts : InterruptRequirements
  clock : ClockRequirements
  can : CanRequirements

/-- The `REQUIREMENTS` constant of the script.  Field order follows the
source: dma = (UART_RX_MODE, UART_RX_PRIORITY, UART_TX_MODE,
UART_TX_PRIORITY, SPI_MODE, ADC_MODE), interrupts = (DMA_PREEMPT,
DMA_SUB, PERIPHERAL_PREEMPT, PERIPHERAL_SUB), clock = (APB1_MIN,
APB1_MAX, APB2_MIN, APB2_MAX), can = (BAUDRATE, AUTO_RETRANSMIT, MODE). -/
def REQUIREMENTS : PlatformRequirements :=
  ⟨⟨"CIRCULAR", "HIGH", "NORMAL", "MEDIUM", "NORMAL", "CIRCULAR"⟩,
   ⟨"5", "0", "6", "0"⟩,
   ⟨42000000, 50000000, 80000000, 100000000⟩,
   ⟨500000, "ENABLE", "NORMAL"⟩⟩

/-- The loaded configuration `self.config`: a Python dict from key to
raw string value, modelled as a partial map. -/
abbrev Config := String → Option String

/-- The dict before any line is loaded. -/
def empty_config : Config := fun _ => none

/-- Dict assignment `self.config[k] = v` (overwrites a prior binding). -/
def update_config (cfg : Config) (k v : String) : Config :=
  fun key => if key = k then some v else cfg key

/-- `IocValidator.get_value`: `self.config.get(key, default)`. -/
def get_value (cfg : Config) (key : String) (default : String) : String :=
  (cfg key).getD default

/-- Python `str.strip()` whitespace test, for the ASCII whitespace
characters (Python also strips some further Unicode spaces; the
configuration format is ASCII). -/
def is_py_space (c : Char) : Bool :=
  c == ' ' || c == '\t' || c == '\n' || c == '\r' || c == '\x0b' || c == '\x0c'

/-- Python `str.strip()` on a character list: drop whitespace from
both ends. -/
def py_strip_chars (cs : List Char) : List Char :=
  ((cs.dropWhile is_py_space).reverse.dropWhile is_py_space).reverse

/-- Python `str.strip()`. -/
def py_strip (s : String) : String :=
  String.mk (py_strip_chars s.toList)

/-- Validity of the digit part accepted by Python `int`, after the
first character: digits, with single `_` separators that must be
followed by a digit and must not end the string. -/
def valid_digit_tail : List Char → Bool
  | [] => true
  | ['_'] => false
  | '_' :: c :: rest => c.isDigit && valid_digit_tail (c :: rest)
  | c :: rest => c.isDigit && valid_digit_tail rest

/-- Validity of a full unsigned digit run accepted by Python `int`:
nonempty, starts with a digit, underscores only between digits. -/
def valid_digit_run : List Char → Bool
  | [] => false
  | c :: rest => c.isDigit && valid_digit_tail rest

/-- Decimal value of a digit run, skipping `_` separators. -/
def digits_value (cs : List Char) : Nat :=
  cs.foldl (fun a c => if c == '_' then a else a * 10 + (c.toNat - 48)) 0

/-- Python `int(s)` on a decimal string: surrounding whitespace is
ignored, then an optional sign and a digit run with optional
underscore separators; anything else raises `ValueError`, modelled
as `none`.  (Python also accepts non-ASCII decimal digits; the
values this script parses are ASCII.) -/
def py_int (s : String) : Option Int :=
  match py_strip_chars s.toList with
  | '+' :: rest =>
      if valid_digit_run rest then some (Int.ofNat (digits_value rest)) else none
  | '-' :: rest =>
      if valid_digit_run rest then some (-(Int.ofNat (digits_value rest))) else none
  | cs =>
      if valid_digit_run cs then some (Int.ofNat (digits_value cs)) else none

/-- The single-quote character used around values in the messages,
written via its code point. -/
def quote_mark : String := "\x27"

/-- Round-half-even of `a / d` for `a d : Nat`, `d > 0`, as used when
formatting a float to a fixed number of decimals. -/
def round_half_even (a d : Nat) : Nat :=
  let q := a / d
  let r := a % d
  if d < 2 * r || (2 * r == d && q % 2 == 1) then q + 1 else q

/-- The f-string fragment `{hz / 1e6:.1f}` of the clock messages:
`hz` Hz rendered in MHz with one decimal.  Idealised to exact
rational rounding (half to even); CPython formats the binary double
nearest to `hz / 1e6`, which agrees except on `x.x5` ties that are
not exactly representable.  No claim depends on these digits. -/
def format_mhz_1dp (hz : Int) : String :=
  let t := round_half_even hz.natAbs 100000
  (if hz < 0 then "-" else "") ++ toString (t / 10) ++ "." ++ toString (t % 10)

/-- The f-string fragment `{hz / 1e6:.0f}` of the clock messages:
`hz` Hz rendered in MHz with no decimals (same idealisation as
`format_mhz_1dp`). -/
def format_mhz_0dp (hz : Int) : String :=
  let t := round_half_even hz.natAbs 1000000
  (if hz < 0 then "-" else "") ++ toString t

/-- Error appended when `Dma.USART2_RX.0.Mode` is not `CIRCULAR`. -/
def uart_rx_mode_error (v : String) : String :=
  "UART RX DMA mode: Expected " ++ REQUIREMENTS.dma.UART_RX_MODE ++
    ", found " ++ quote_mark ++ v ++ quote_mark

/-- Warning appended when `Dma.USART2_TX.1.Mode` is not `NORMAL`. -/
def uart_tx_mode_warning (v : String) : String :=
  "UART TX DMA mode: Expected " ++ REQUIREMENTS.dma.UART_TX_MODE ++
    ", found " ++ quote_mark ++ v ++ quote_mark

/-- Error appended when `Dma.ADC1.0.Mode` is not `CIRCULAR`. -/
def adc_mode_error (v : String) : String :=
  "ADC DMA mode: Expected " ++ REQUIREMENTS.dma.ADC_MODE ++
    ", found " ++ quote_mark ++ v ++ quote_mark

/-- Warning appended when the DMA preemption priority differs. -/
def dma_preempt_warning (v : String) : String :=
  "DMA preemption priority: Expected " ++ REQUIREMENTS.interrupts.DMA_PREEMPT ++
    ", found " ++ quote_mark ++ v ++ quote_mark

/-- Warning appended when the DMA sub-priority differs. -/
def dma_sub_warning (v : String) : String :=
  "DMA sub-priority: Expected " ++ REQUIREMENTS.interrupts.DMA_SUB ++
    ", found " ++ quote_mark ++ v ++ quote_mark

/-- Error appended when a clock frequency fails to parse. -/
def clock_parse_error : String :=
  "Failed to parse clock frequencies from IOC file"

/-- Error appended when the APB1 frequency is out of range. -/
def apb1_range_error (hz : Int) : String :=
  "APB1 frequency out of range: " ++ format_mhz_1dp hz ++
    " MHz (expected " ++ format_mhz_0dp REQUIREMENTS.clock.APB1_MIN ++ "-" ++
    format_mhz_0dp REQUIREMENTS.clock.APB1_MAX ++ " MHz)"

/-- Warning appended when the APB2 frequency is out of range. -/
def apb2_range_warning (hz : Int) : String :=
  "APB2 frequency out of optimal range: " ++ format_mhz_1dp hz ++
    " MHz (recommended " ++ format_mhz_0dp REQUIREMENTS.clock.APB2_MIN ++ "-" ++
    format_mhz_0dp REQUIREMENTS.clock.APB2_MAX ++ " MHz)"

/-- Warning appended when `CAN1.Mode` is empty or absent. -/
def can_not_enabled_warning : String :=
  "CAN1 not enabled (platform supports CAN)"

/-- Warning appended when `CAN1.NART` is not exactly `DISABLE`. -/
def nart_warning (v : String) : String :=
  "CAN auto-retransmit should be enabled (NART=DISABLE), found NART=" ++ v

/-- Error appended when `ProjectManager.KeepUserCode` is not `true`. -/
def keep_user_code_error : String :=
  "Code generation setting " ++ quote_mark ++ "KeepUserCode" ++ quote_mark ++ " must be " ++
    quote_mark ++ "true" ++ quote_mark ++ " for platform integration"

/-- Warning appended when `ProjectManager.DeletePrevious` is `true`. -/
def delete_previous_warning : String :=
  "Code generation " ++ quote_mark ++ "DeletePrevious" ++ quote_mark ++
    " is enabled - may remove platform files"

/-- `IocValidator.validate_dma_config`.  The source appends the UART RX
error, then the UART TX warning, then the ADC error; the pair holds
(errors appended, warnings appended) in that per-list order. -/
def validate_dma_config (cfg : Config) : List String × List String :=
  let uart_rx_dma := get_value cfg "Dma.USART2_RX.0.Mode" ""
  let uart_tx_dma := get_value cfg "Dma.USART2_TX.1.Mode" ""
  let adc_dma_mode := get_value cfg "Dma.ADC1.0.Mode" ""
  ((if uart_rx_dma ≠ REQUIREMENTS.dma.UART_RX_MODE then
      [uart_rx_mode_error uart_rx_dma] else []) ++
   (if adc_dma_mode ≠ REQUIREMENTS.dma.ADC_MODE then
      [adc_mode_error adc_dma_mode] else []),
   if uart_tx_dma ≠ REQUIREMENTS.dma.UART_TX_MODE then
      [uart_tx_mode_warning uart_tx_dma] else [])

/-- `IocValidator.validate_interrupts`: two warning-only comparisons. -/
def validate_interrupts (cfg : Config) : List String × List String :=
  let dma_preempt := get_value cfg "NVIC.DMA2_Stream0_IRQn.0.PreemptionPriority" ""
  let dma_sub := get_value cfg "NVIC.DMA2_Stream0_IRQn.0.SubPriority" ""
  ([],
   (if dma_preempt ≠ REQUIREMENTS.interrupts.DMA_PREEMPT then
      [dma_preempt_warning dma_preempt] else []) ++
   (if dma_sub ≠ REQUIREMENTS.interrupts.DMA_SUB then
      [dma_sub_warning dma_sub] else []))

/-- `IocValidator.validate_clock_config`: both frequency strings are
fetched with default `"0"`; a `ValueError` from either `int(...)`
appends one parse error and returns from the method. -/
def validate_clock_config (cfg : Config) : List String × List String :=
  let apb1_freq_str := get_value cfg "RCC.APB1Freq_Value" "0"
  let apb2_freq_str := get_value cfg "RCC.APB2Freq_Value" "0"
  match py_int apb1_freq_str, py_int apb2_freq_str with
  | some apb1_freq, some apb2_freq =>
      ((if ¬ (REQUIREMENTS.clock.APB1_MIN ≤ apb1_freq ∧
              apb1_freq ≤ REQUIREMENTS.clock.APB1_MAX) then
          [apb1_range_error apb1_freq] else []),
       (if ¬ (REQUIREMENTS.clock.APB2_MIN ≤ apb2_freq ∧
              apb2_freq ≤ REQUIREMENTS.clock.APB2_MAX) then
          [apb2_range_warning apb2_freq] else []))
  | _, _ => ([clock_parse_error], [])

/-- `IocValidator.validate_can_config`.  An empty/absent `CAN1.Mode`
appends one warning and returns; otherwise `CAN1.Prescaler` is read
only for an informational print (it never produces a finding) and
`CAN1.NART` must equal `DISABLE` exactly. -/
def validate_can_config (cfg : Config) : List String × List String :=
  let can_mode := get_value cfg "CAN1.Mode" ""
  if can_mode = "" then
    ([], [can_not_enabled_warning])
  else
    let _prescaler := get_value cfg "CAN1.Prescaler" ""
    let auto_retx := get_value cfg "CAN1.NART" ""
    if auto_retx = "DISABLE" then ([], [])
    else ([], [nart_warning auto_retx])

/-- `IocValidator.validate_code_generation`: `KeepUserCode` must be
`true` (else error); `DeletePrevious` equal to `true` warns. -/
def validate_code_generation (cfg : Config) : List String × List String :=
  let keep_user_code := get_value cfg "ProjectManager.KeepUserCode" ""
  let delete_prev := get_value cfg "ProjectManager.DeletePrevious" ""
  ((if keep_user_code ≠ "true" then [keep_user_code_error] else []),
   (if delete_prev = "true" then [delete_previous_warning] else []))

/-- The five check calls of `IocValidator.run_validation`, in source
order; the result is the final (`self.errors`, `self.warnings`). -/
def run_checks (cfg : Config) : List String × List String :=
  ((validate_dma_config cfg).1 ++ (validate_interrupts cfg).1 ++
     (validate_clock_config cfg).1 ++ (validate_can_config cfg).1 ++
     (validate_code_generation cfg).1,
   (validate_dma_config cfg).2 ++ (validate_interrupts cfg).2 ++
     (validate_clock_config cfg).2 ++ (validate_can_config cfg).2 ++
     (validate_code_generation cfg).2)

/-- The boolean returned by `IocValidator.run_validation` after the
checks: `True` when both lists are empty, `False` when errors exist,
`True` when only warnings exist. -/
def run_validation (cfg : Config) : Bool :=
  if (run_checks cfg).1 = [] ∧ (run_checks cfg).2 = [] then true
  else if (run_checks cfg).1 ≠ [] then false
  else true

/-- Splitter for the `for line in f` loop: the file text cut at each
newline (text mode has already translated platform line endings). -/
def split_lines_aux : List Char → List Char → List (List Char)
  | [], acc => [acc.reverse]
  | '\n' :: rest, acc => acc.reverse :: split_lines_aux rest []
  | c :: rest, acc => split_lines_aux rest (c :: acc)

/-- Python `line.startswith("#")` on a character list. -/
def starts_with_hash : List Char → Bool
  | '#' :: _ => true
  | _ => false

/-- Python `line.split("=", 1)`: the part before the first `=` and
the whole rest after it. -/
def split_first_eq (cs : List Char) : List Char × List Char :=
  (cs.takeWhile (fun c => c != '='), (cs.dropWhile (fun c => c != '=')).drop 1)

/-- The body of the `for line in f` loop of `IocValidator.load_config`:
strip the line; if it contains `=` and does not start with `#`, split
on the first `=`, strip both parts and assign into the dict. -/
def process_line (cfg : Config) (raw : List Char) : Config :=
  let line := py_strip_chars raw
  if line.contains '=' && !(starts_with_hash line) then
    let kv := split_first_eq line
    update_config cfg (String.mk (py_strip_chars kv.1)) (String.mk (py_strip_chars kv.2))
  else cfg

/-- `IocValidator.load_config` on the text of an existing file. -/
def load_config (text : String) : Config :=
  (split_lines_aux text.toList []).foldl process_line empty_config

/-- Outcome of constructing `IocValidator` (which loads the file):
the file's text, or the `FileNotFoundError` raised for a missing
path, or any other unexpected exception. -/
inductive LoadResult where
  | ok (text : String)
  | notFound
  | unexpectedExc

/-- `main`: usage check on `len(sys.argv)`, then load and validate;
`sys.exit(0 if success else 1)`, `FileNotFoundError` exits 1, any
other exception exits 2. -/
def main_exit_code (argv : List String) (r : LoadResult) : Nat :=
  if argv.length ≠ 2 then 1
  else
    match r with
    | LoadResult.ok text => if run_validation (load_config text) then 0 else 1
    | LoadResult.notFound => 1
    | LoadResult.unexpectedExc => 2

/-- The configuration keys whose values can influence a finding: the
twelve keys read by the five checks, minus `CAN1.Prescaler`, which is
read only for an informational print. -/
def finding_relevant_keys : List String :=
  ["Dma.USART2_RX.0.Mode", "Dma.USART2_TX.1.Mode", "Dma.ADC1.0.Mode",
   "NVIC.DMA2_Stream0_IRQn.0.PreemptionPriority",
   "NVIC.DMA2_Stream0_IRQn.0.SubPriority",
   "RCC.APB1Freq_Value", "RCC.APB2Freq_Value", "CAN1.Mode", "CAN1.NART",
   "ProjectManager.KeepUserCode", "ProjectManager.DeletePrevious"]

/-- A file text that sets every rulebook key to its expected value
(`ProjectManager.DeletePrevious` is simply absent, hence not `true`). -/
def good_ioc : String :=
  "Dma.USART2_RX.0.Mode=CIRCULAR\nDma.USART2_TX.1.Mode=NORMAL\n" ++
  "Dma.ADC1.0.Mode=CIRCULAR\n" ++
  "NVIC.DMA2_Stream0_IRQn.0.PreemptionPriority=5\n" ++
  "NVIC.DMA2_Stream0_IRQn.0.SubPriority=0\n" ++
  "RCC.APB1Freq_Value=45000000\nRCC.APB2Freq_Value=90000000\n" ++
  "CAN1.Mode=Master\nCAN1.NART=DISABLE\nProjectManager.KeepUserCode=true"

theorem get_value_update_self (cfg : Config) (k v d : String) :
    get_value (update_config cfg k v) k d = v := by
  simp [get_value, update_config]

theorem get_value_update_ne (cfg : Config) (k v k' d : String) (h : k' ≠ k) :
    get_value (update_config cfg k v) k' d = get_value cfg k' d := by
  simp [get_value, update_config, h]

theorem get_value_of_none (cfg : Config) (k d : String) (h : cfg k = none) :
    get_value cfg k d = d := by
  simp [get_value, h]

theorem run_validation_eq_isEmpty (cfg : Config) :
    run_validation cfg = (run_checks cfg).1.isEmpty := by
  unfold run_validation
  split_ifs with h1 h2
  · simp [h1.1]
  · rcases l : (run_checks cfg).1 with _ | ⟨a, as⟩
    · exact absurd l h2
    · rfl
  · rw [not_not] at h2
    simp [h2]

/-- Claim C5: the loader processes lines independently; a stripped line
that is empty, starts with `#`, or has no `=` contributes no key; any
other line is split on the first `=` only, both parts are trimmed, and
the key maps to the value, with a later occurrence of a key
overwriting an earlier one (`A=1` then `A=2` loads `A` as `2`). -/
theorem c5_loader_line_semantics :
    (∀ (cfg : Config) (l : List Char),
        py_strip_chars l = [] → process_line cfg l = cfg) ∧
    (∀ (cfg : Config) (l : List Char),
        starts_with_hash (py_strip_chars l) = true → process_line cfg l = cfg) ∧
    (∀ (cfg : Config) (l : List Char),
        '=' ∉ py_strip_chars l → process_line cfg l = cfg) ∧
    (∀ (cfg : Config) (l : List Char),
        '=' ∈ py_strip_chars l →
        starts_with_hash (py_strip_chars l) = false →
        process_line cfg l =
          update_config cfg
            (String.mk (py_strip_chars (split_first_eq (py_strip_chars l)).1))
            (String.mk (py_strip_chars (split_first_eq (py_strip_chars l)).2))) ∧
    (∀ text : String,
        load_config text = (split_lines_aux text.toList []).foldl process_line empty_config) ∧
    load_config "A=1\nA=2" "A" = some "2" ∧
    load_config " key = a=b " "key" = some "a=b" := by
  refine ⟨?_, ?_, ?_, ?_, fun _ => rfl, by decide, by decide⟩
  · intro cfg l h
    simp [process_line, h]
  · intro cfg l h
    simp [process_line, h]
  · intro cfg l h
    simp [process_line, h]
  · intro cfg l h1 h2
    simp [process_line, h1, h2]

theorem c5_loader_line_semantics_witness :
    process_line empty_config "   ".toList = empty_config ∧
    process_line empty_config "# A=1".toList = empty_config ∧
    process_line empty_config "noequals".toList = empty_config ∧
    process_line empty_config " K = V ".toList "K" = some "V" := by
  refine ⟨?_, ?_, ?_, ?_⟩
  · exact c5_loader_line_semantics.1 empty_config _ (by decide)
  · exact c5_loader_line_semantics.2.1 empty_config _ (by decide)
  · exact c5_loader_line_semantics.2.2.1 empty_config _ (by decide)
  · rw [c5_loader_line_semantics.2.2.2.1 empty_config _ (by decide) (by decide)]
    decide

/-- Claim C6: the DMA check compares, case-sensitively,
`Dma.USART2_RX.0.Mode` to `CIRCULAR` (mismatch is an error),
`Dma.USART2_TX.1.Mode` to `NORMAL` (mismatch is a warning) and
`Dma.ADC1.0.Mode` to `CIRCULAR` (mismatch is an error), in that
order; a config missing `Dma.USART2_RX.0.Mode` with the other two
DMA keys correct yields exactly the one RX error for the
empty-string default. -/
theorem c6_dma_check (cfg : Config) :
    validate_dma_config cfg =
      ((if get_value cfg "Dma.USART2_RX.0.Mode" "" = "CIRCULAR" then []
        else [uart_rx_mode_error (get_value cfg "Dma.USART2_RX.0.Mode" "")]) ++
       (if get_value cfg "Dma.ADC1.0.Mode" "" = "CIRCULAR" then []
        else [adc_mode_error (get_value cfg "Dma.ADC1.0.Mode" "")]),
       if get_value cfg "Dma.USART2_TX.1.Mode" "" = "NORMAL" then []
       else [uart_tx_mode_warning (get_value cfg "Dma.USART2_TX.1.Mode" "")]) ∧
    (cfg "Dma.USART2_RX.0.Mode" = none →
     get_value cfg "Dma.USART2_TX.1.Mode" "" = "NORMAL" →
     get_value cfg "Dma.ADC1.0.Mode" "" = "CIRCULAR" →
     validate_dma_config cfg = ([uart_rx_mode_error ""], [])) := by
  constructor
  · by_cases h1 : get_value cfg "Dma.USART2_RX.0.Mode" "" = "CIRCULAR" <;>
      by_cases h2 : get_value cfg "Dma.ADC1.0.Mode" "" = "CIRCULAR" <;>
      by_cases h3 : get_value cfg "Dma.USART2_TX.1.Mode" "" = "NORMAL" <;>
      simp [validate_dma_config, REQUIREMENTS, h1, h2, h3]
  · intro h0 htx hadc
    have hrx : get_value cfg "Dma.USART2_RX.0.Mode" "" = "" := get_value_of_none cfg _ _ h0
    simp [validate_dma_config, REQUIREMENTS, hrx, htx, hadc]

theorem c6_dma_check_witness :
    validate_dma_config
        (update_config (update_config empty_config "Dma.USART2_TX.1.Mode" "NORMAL")
          "Dma.ADC1.0.Mode" "CIRCULAR") =
      ([uart_rx_mode_error ""], []) := by
  exact (c6_dma_check _).2 (by decide) (by decide) (by decide)

/-- Claim C7: the CAN check warns once and stops if `CAN1.Mode` is
empty or absent; otherwise `CAN1.Prescaler` never influences the
findings, `CAN1.NART = DISABLE` yields no CAN finding, and any other
NART value yields exactly one warning naming the value found. -/
theorem c7_can_check (cfg : Config) :
    (get_value cfg "CAN1.Mode" "" = "" →
       validate_can_config cfg = ([], [can_not_enabled_warning])) ∧
    (∀ v : String, validate_can_config (update_config cfg "CAN1.Prescaler" v) =
       validate_can_config cfg) ∧
    (get_value cfg "CAN1.Mode" "" ≠ "" → get_value cfg "CAN1.NART" "" = "DISABLE" →
       validate_can_config cfg = ([], [])) ∧
    (get_value cfg "CAN1.Mode" "" ≠ "" → get_value cfg "CAN1.NART" "" ≠ "DISABLE" →
       validate_can_config cfg = ([], [nart_warning (get_value cfg "CAN1.NART" "")])) := by
  refine ⟨?_, ?_, ?_, ?_⟩
  · intro h
    simp [validate_can_config, h]
  · intro v
    have hm : ("CAN1.Mode" : String) ≠ "CAN1.Prescaler" := by decide
    have hn : ("CAN1.NART" : String) ≠ "CAN1.Prescaler" := by decide
    simp only [validate_can_config,
      get_value_update_ne cfg "CAN1.Prescaler" v "CAN1.Mode" "" hm,
      get_value_update_ne cfg "CAN1.Prescaler" v "CAN1.NART" "" hn]
  · intro h1 h2
    simp [validate_can_config, h1, h2]
  · intro h1 h2
    simp [validate_can_config, h1, h2]

theorem c7_can_check_witness :
    validate_can_config empty_config = ([], [can_not_enabled_warning]) ∧
    validate_can_config
        (update_config (update_config empty_config "CAN1.Mode" "Master")
          "CAN1.NART" "DISABLE") = ([], []) ∧
    validate_can_config
        (update_config (update_config empty_config "CAN1.Mode" "Master")
          "CAN1.NART" "ENABLE") =
      ([], [nart_warning (get_value
          (update_config (update_config empty_config "CAN1.Mode" "Master")
            "CAN1.NART" "ENABLE") "CAN1.NART" "")]) := by
  refine ⟨?_, ?_, ?_⟩
  · exact (c7_can_check empty_config).1 rfl
  · exact (c7_can_check _).2.2.1 (by decide) (by decide)
  · exact (c7_can_check _).2.2.2 (by decide) (by decide)

/-- Claim C8: when both clock strings parse, the clock check errors
exactly when APB1 is outside the inclusive range
[42000000, 50000000] and warns exactly when APB2 is outside the
inclusive range [80000000, 100000000]; `RCC.APB1Freq_Value=41000000`
yields exactly one clock error. -/
theorem c8_clock_ranges (cfg : Config) :
    (∀ a b : Int,
        py_int (get_value cfg "RCC.APB1Freq_Value" "0") = some a →
        py_int (get_value cfg "RCC.APB2Freq_Value" "0") = some b →
        validate_clock_config cfg =
          ((if 42000000 ≤ a ∧ a ≤ 50000000 then [] else [apb1_range_error a]),
           (if 80000000 ≤ b ∧ b ≤ 100000000 then [] else [apb2_range_warning b]))) ∧
    (get_value cfg "RCC.APB1Freq_Value" "0" = "41000000" →
        (validate_clock_config cfg).1.length = 1) := by
  constructor
  · intro a b ha hb
    by_cases hA : (42000000 : Int) ≤ a ∧ a ≤ 50000000 <;>
      by_cases hB : (80000000 : Int) ≤ b ∧ b ≤ 100000000 <;>
      simp [validate_clock_config, REQUIREMENTS, ha, hb, hA, hB]
  · intro h41
    have ha : py_int (get_value cfg "RCC.APB1Freq_Value" "0") = some 41000000 := by
      rw [h41]; decide
    rcases hb : py_int (get_value cfg "RCC.APB2Freq_Value" "0") with _ | b
    · simp [validate_clock_config, ha, hb]
    · have hout : ¬ ((42000000 : Int) ≤ 41000000 ∧ (41000000 : Int) ≤ 50000000) := by decide
      simp [validate_clock_config, REQUIREMENTS, ha, hb, hout]

theorem c8_clock_ranges_witness :
    (validate_clock_config (update_config empty_config "RCC.APB1Freq_Value" "41000000")).1.length = 1 ∧
    validate_clock_config
        (update_config (update_config empty_config "RCC.APB1Freq_Value" "45000000")
          "RCC.APB2Freq_Value" "90000000") = ([], []) := by
  constructor
  · exact (c8_clock_ranges _).2 (by decide)
  · rw [(c8_clock_ranges _).1 45000000 90000000 (by decide) (by decide)]
    decide

/-- Claim C3 counterexample: on a config with no keys at all, the
clock check's lookup of `RCC.APB1Freq_Value` resolves to the
call-site default `"0"`, not to the empty string; accordingly the
check reports the out-of-range error for 0 Hz rather than the parse
error that an empty-string default would have produced. -/
theorem c3_lookup_defaults_counterexample :
    get_value empty_config "RCC.APB1Freq_Value" "0" = "0" ∧
    ("0" : String) ≠ "" ∧
    validate_clock_config empty_config = ([apb1_range_error 0], [apb2_range_warning 0]) ∧
    (validate_clock_config empty_config).1 ≠ [clock_parse_error] := by
  refine ⟨rfl, by decide, by decide, by decide⟩

/-- Claim C3 (amended): for every key absent from the loaded config,
every lookup performed during validation resolves to the default
supplied at its call site — the empty string everywhere except the
two clock-frequency lookups, which default to `"0"` — and a missing
key is never itself an error: a check cannot distinguish an absent
key from one present with its call-site default. -/
theorem c3_lookup_defaults_amended (cfg : Config) :
    (∀ k d : String, cfg k = none → get_value cfg k d = d) ∧
    (cfg "RCC.APB1Freq_Value" = none → get_value cfg "RCC.APB1Freq_Value" "0" = "0") ∧
    (cfg "Dma.USART2_RX.0.Mode" = none → get_value cfg "Dma.USART2_RX.0.Mode" "" = "") ∧
    (cfg "Dma.USART2_RX.0.Mode" = none →
       validate_dma_config cfg =
         validate_dma_config (update_config cfg "Dma.USART2_RX.0.Mode" "")) ∧
    (cfg "RCC.APB1Freq_Value" = none → cfg "RCC.APB2Freq_Value" = none →
       validate_clock_config cfg =
         validate_clock_config
           (update_config (update_config cfg "RCC.APB1Freq_Value" "0")
             "RCC.APB2Freq_Value" "0")) := by
  refine ⟨fun k d h => get_value_of_none cfg k d h,
    fun h => get_value_of_none cfg _ _ h,
    fun h => get_value_of_none cfg _ _ h, ?_, ?_⟩
  · intro h
    have e0 : get_value cfg "Dma.USART2_RX.0.Mode" "" = "" := get_value_of_none cfg _ _ h
    have e1 : get_value (update_config cfg "Dma.USART2_RX.0.Mode" "")
        "Dma.USART2_RX.0.Mode" "" = "" := get_value_update_self cfg _ _ _
    have e2 := get_value_update_ne cfg "Dma.USART2_RX.0.Mode" ""
      "Dma.USART2_TX.1.Mode" "" (by decide)
    have e3 := get_value_update_ne cfg "Dma.USART2_RX.0.Mode" ""
      "Dma.ADC1.0.Mode" "" (by decide)
    simp only [validate_dma_config, e0, e1, e2, e3]
  · intro h1 h2
    have g1 : get_value cfg "RCC.APB1Freq_Value" "0" = "0" := get_value_of_none cfg _ _ h1
    have g2 : get_value cfg "RCC.APB2Freq_Value" "0" = "0" := get_value_of_none cfg _ _ h2
    have f2 : get_value
        (update_config (update_config cfg "RCC.APB1Freq_Value" "0") "RCC.APB2Freq_Value" "0")
        "RCC.APB2Freq_Value" "0" = "0" := get_value_update_self _ _ _ _
    have f1 : get_value
        (update_config (update_config cfg "RCC.APB1Freq_Value" "0") "RCC.APB2Freq_Value" "0")
        "RCC.APB1Freq_Value" "0" = "0" := by
      rw [get_value_update_ne _ _ _ _ _ (by decide)]
      exact get_value_update_self cfg _ _ _
    simp only [validate_clock_config, g1, g2, f1, f2]

theorem c3_lookup_defaults_amended_witness :
    get_value empty_config "RCC.APB1Freq_Value" "0" = "0" ∧
    get_value empty_config "Dma.USART2_RX.0.Mode" "" = "" ∧
    validate_clock_config empty_config =
      validate_clock_config
        (update_config (update_config empty_config "RCC.APB1Freq_Value" "0")
          "RCC.APB2Freq_Value" "0") := by
  exact ⟨(c3_lookup_defaults_amended empty_config).2.1 rfl,
    (c3_lookup_defaults_amended empty_config).2.2.1 rfl,
    (c3_lookup_defaults_amended empty_config).2.2.2.2 rfl rfl⟩

/-- Claim C4: when either clock string fails to parse as an integer,
the clock check contributes exactly the one parse error and nothing
else; the other four checks still contribute their findings as
usual, and validation completes with a normal failed result. -/
theorem c4_clock_parse_failure (cfg : Config)
    (h : py_int (get_value cfg "RCC.APB1Freq_Value" "0") = none ∨
         py_int (get_value cfg "RCC.APB2Freq_Value" "0") = none) :
    validate_clock_config cfg = ([clock_parse_error], []) ∧
    run_checks cfg =
      ((validate_dma_config cfg).1 ++ (validate_interrupts cfg).1 ++ [clock_parse_error] ++
         (validate_can_config cfg).1 ++ (validate_code_generation cfg).1,
       (validate_dma_config cfg).2 ++ (validate_interrupts cfg).2 ++
         (validate_can_config cfg).2 ++ (validate_code_generation cfg).2) ∧
    run_validation cfg = false := by
  have hcl : validate_clock_config cfg = ([clock_parse_error], []) := by
    rcases hpa : py_int (get_value cfg "RCC.APB1Freq_Value" "0") with _ | a
    · simp [validate_clock_config, hpa]
    · rcases h with h1 | h2
      · rw [hpa] at h1
        exact absurd h1 (by simp)
      · simp [validate_clock_config, hpa, h2]
  have hrc : run_checks cfg =
      ((validate_dma_config cfg).1 ++ (validate_interrupts cfg).1 ++ [clock_parse_error] ++
         (validate_can_config cfg).1 ++ (validate_code_generation cfg).1,
       (validate_dma_config cfg).2 ++ (validate_interrupts cfg).2 ++
         (validate_can_config cfg).2 ++ (validate_code_generation cfg).2) := by
    simp [run_checks, hcl]
  refine ⟨hcl, hrc, ?_⟩
  rw [run_validation_eq_isEmpty, hrc]
  simp

theorem c4_clock_parse_failure_witness :
    validate_clock_config (update_config empty_config "RCC.APB1Freq_Value" "abc") =
      ([clock_parse_error], []) ∧
    run_validation (update_config empty_config "RCC.APB1Freq_Value" "abc") = false := by
  have h := c4_clock_parse_failure (update_config empty_config "RCC.APB1Freq_Value" "abc")
    (Or.inl (by decide))
  exact ⟨h.1, h.2.2⟩

/-- Claim C9: a full validation run appends at most 4 errors (up to
2 from the DMA check, 1 from the clock check, 1 from the
code-generation check) and at most 6 warnings (up to 1 DMA,
2 interrupt, 1 clock, 1 CAN, 1 code-generation); no check exceeds
these per-check bounds. -/
theorem c9_findings_bounds (cfg : Config) :
    (run_checks cfg).1.length ≤ 4 ∧
    (run_checks cfg).2.length ≤ 6 ∧
    (validate_dma_config cfg).1.length ≤ 2 ∧
    (validate_clock_config cfg).1.length ≤ 1 ∧
    (validate_code_generation cfg).1.length ≤ 1 ∧
    (validate_interrupts cfg).1.length = 0 ∧
    (validate_can_config cfg).1.length = 0 ∧
    (validate_dma_config cfg).2.length ≤ 1 ∧
    (validate_interrupts cfg).2.length ≤ 2 ∧
    (validate_clock_config cfg).2.length ≤ 1 ∧
    (validate_can_config cfg).2.length ≤ 1 ∧
    (validate_code_generation cfg).2.length ≤ 1 := by
  have d1 : (validate_dma_config cfg).1.length ≤ 2 := by
    simp only [validate_dma_config]
    split_ifs <;> simp
  have d2 : (validate_dma_config cfg).2.length ≤ 1 := by
    simp only [validate_dma_config]
    split_ifs <;> simp
  have i1 : (validate_interrupts cfg).1.length = 0 := by
    simp [validate_interrupts]
  have i2 : (validate_interrupts cfg).2.length ≤ 2 := by
    simp only [validate_interrupts]
    split_ifs <;> simp
  have k1 : (validate_clock_config cfg).1.length ≤ 1 := by
    simp only [validate_clock_config]
    split
    · split_ifs <;> simp
    · simp
  have k2 : (validate_clock_config cfg).2.length ≤ 1 := by
    simp only [validate_clock_config]
    split
    · split_ifs <;> simp
    · simp
  have n1 : (validate_can_config cfg).1.length = 0 := by
    simp only [validate_can_config]
    split_ifs <;> simp
  have n2 : (validate_can_config cfg).2.length ≤ 1 := by
    simp only [validate_can_config]
    split_ifs <;> simp
  have g1 : (validate_code_generation cfg).1.length ≤ 1 := by
    simp only [validate_code_generation]
    split_ifs <;> simp
  have g2 : (validate_code_generation cfg).2.length ≤ 1 := by
    simp only [validate_code_generation]
    split_ifs <;> simp
  have t1 : (run_checks cfg).1.length ≤ 4 := by
    simp only [run_checks, List.length_append]
    omega
  have t2 : (run_checks cfg).2.length ≤ 6 := by
    simp only [run_checks, List.length_append]
    omega
  exact ⟨t1, t2, d1, k1, g1, i1, n1, d2, i2, k2, n2, g2⟩

/-- Claim C10: a non-empty `CAN1.Mode` enables the CAN check without
the mode value itself ever producing a finding, and any key outside
the eleven finding-relevant keys (in particular the keys matching
the unused rulebook entries for CAN mode/baudrate, DMA priorities,
SPI mode and peripheral interrupt priorities) never affects errors,
warnings, or the validation result that determines the exit code. -/
theorem c10_unused_rulebook (cfg : Config) :
    (∀ v w : String, v ≠ "" → w ≠ "" →
       validate_can_config (update_config cfg "CAN1.Mode" v) =
         validate_can_config (update_config cfg "CAN1.Mode" w)) ∧
    (∀ k v : String, k ∉ finding_relevant_keys →
       run_checks (update_config cfg k v) = run_checks cfg) ∧
    (∀ k v : String, k ∉ finding_relevant_keys →
       run_validation (update_config cfg k v) = run_validation cfg) := by
  have hcan : ∀ v : String, v ≠ "" →
      validate_can_config (update_config cfg "CAN1.Mode" v) =
        (if get_value cfg "CAN1.NART" "" = "DISABLE" then ([], [])
         else ([], [nart_warning (get_value cfg "CAN1.NART" "")])) := by
    intro v hv
    have e1 : get_value (update_config cfg "CAN1.Mode" v) "CAN1.Mode" "" = v :=
      get_value_update_self cfg _ _ _
    have e2 := get_value_update_ne cfg "CAN1.Mode" v "CAN1.NART" "" (by decide)
    simp only [validate_can_config, e1, e2, if_neg hv]
  have hrc : ∀ k v : String, k ∉ finding_relevant_keys →
      run_checks (update_config cfg k v) = run_checks cfg := by
    intro k v hk
    simp only [finding_relevant_keys, List.mem_cons, List.not_mem_nil, or_false,
      not_or] at hk
    obtain ⟨n1, n2, n3, n4, n5, n6, n7, n8, n9, n10, n11⟩ := hk
    have e1 := get_value_update_ne cfg k v "Dma.USART2_RX.0.Mode" "" (Ne.symm n1)
    have e2 := get_value_update_ne cfg k v "Dma.USART2_TX.1.Mode" "" (Ne.symm n2)
    have e3 := get_value_update_ne cfg k v "Dma.ADC1.0.Mode" "" (Ne.symm n3)
    have e4 := get_value_update_ne cfg k v
      "NVIC.DMA2_Stream0_IRQn.0.PreemptionPriority" "" (Ne.symm n4)
    have e5 := get_value_update_ne cfg k v
      "NVIC.DMA2_Stream0_IRQn.0.SubPriority" "" (Ne.symm n5)
    have e6 := get_value_update_ne cfg k v "RCC.APB1Freq_Value" "0" (Ne.symm n6)
    have e7 := get_value_update_ne cfg k v "RCC.APB2Freq_Value" "0" (Ne.symm n7)
    have e8 := get_value_update_ne cfg k v "CAN1.Mode" "" (Ne.symm n8)
    have e9 := get_value_update_ne cfg k v "CAN1.NART" "" (Ne.symm n9)
    have e10 := get_value_update_ne cfg k v "ProjectManager.KeepUserCode" "" (Ne.symm n10)
    have e11 := get_value_update_ne cfg k v "ProjectManager.DeletePrevious" "" (Ne.symm n11)
    simp only [run_checks, validate_dma_config, validate_interrupts,
      validate_clock_config, validate_can_config, validate_code_generation,
      e1, e2, e3, e4, e5, e6, e7, e8, e9, e10, e11]
  refine ⟨fun v w hv hw => by rw [hcan v hv, hcan w hw], hrc, ?_⟩
  intro k v hk
  rw [run_validation_eq_isEmpty, run_validation_eq_isEmpty, hrc k v hk]

theorem c10_unused_rulebook_witness :
    run_checks (update_config empty_config "Dma.SPI1_TX.0.Mode" "CIRCULAR") =
      run_checks empty_config ∧
    run_checks (update_config empty_config "Dma.USART2_RX.0.Priority" "LOW") =
      run_checks empty_config ∧
    validate_can_config (update_config empty_config "CAN1.Mode" "LOOPBACK") =
      validate_can_config (update_config empty_config "CAN1.Mode" "NORMAL") := by
  exact ⟨(c10_unused_rulebook empty_config).2.1 _ _ (by decide),
    (c10_unused_rulebook empty_config).2.1 _ _ (by decide),
    (c10_unused_rulebook empty_config).1 _ _ (by decide) (by decide)⟩

/-- Claim C1: a loaded config that satisfies every rulebook
expectation — the three DMA modes, the two NVIC priorities, both
clock frequencies parsing into their inclusive ranges, a non-empty
`CAN1.Mode`, `CAN1.NART=DISABLE`, `ProjectManager.KeepUserCode=true`
and `ProjectManager.DeletePrevious` not `true` — produces zero
errors, zero warnings, an overall pass, and exit code 0. -/
theorem c1_rulebook_compliant_passes (text : String)
    (h1 : get_value (load_config text) "Dma.USART2_RX.0.Mode" "" = "CIRCULAR")
    (h2 : get_value (load_config text) "Dma.USART2_TX.1.Mode" "" = "NORMAL")
    (h3 : get_value (load_config text) "Dma.ADC1.0.Mode" "" = "CIRCULAR")
    (h4 : get_value (load_config text) "NVIC.DMA2_Stream0_IRQn.0.PreemptionPriority" "" = "5")
    (h5 : get_value (load_config text) "NVIC.DMA2_Stream0_IRQn.0.SubPriority" "" = "0")
    (h6 : ∃ a : Int, py_int (get_value (load_config text) "RCC.APB1Freq_Value" "0") = some a ∧
            42000000 ≤ a ∧ a ≤ 50000000)
    (h7 : ∃ b : Int, py_int (get_value (load_config text) "RCC.APB2Freq_Value" "0") = some b ∧
            80000000 ≤ b ∧ b ≤ 100000000)
    (h8 : get_value (load_config text) "CAN1.Mode" "" ≠ "")
    (h9 : get_value (load_config text) "CAN1.NART" "" = "DISABLE")
    (h10 : get_value (load_config text) "ProjectManager.KeepUserCode" "" = "true")
    (h11 : get_value (load_config text) "ProjectManager.DeletePrevious" "" ≠ "true") :
    run_checks (load_config text) = ([], []) ∧
    run_validation (load_config text) = true ∧
    ∀ prog path : String, main_exit_code [prog, path] (LoadResult.ok text) = 0 := by
  obtain ⟨a, ha, ha1, ha2⟩ := h6
  obtain ⟨b, hb, hb1, hb2⟩ := h7
  have hdma : validate_dma_config (load_config text) = ([], []) := by
    simp [validate_dma_config, REQUIREMENTS, h1, h2, h3]
  have hint : validate_interrupts (load_config text) = ([], []) := by
    simp [validate_interrupts, REQUIREMENTS, h4, h5]
  have hclk : validate_clock_config (load_config text) = ([], []) := by
    simp [validate_clock_config, REQUIREMENTS, ha, hb, ha1, ha2, hb1, hb2]
  have hcan : validate_can_config (load_config text) = ([], []) := by
    simp [validate_can_config, h8, h9]
  have hcg : validate_code_generation (load_config text) = ([], []) := by
    simp [validate_code_generation, h10, h11]
  have hrc : run_checks (load_config text) = ([], []) := by
    simp [run_checks, hdma, hint, hclk, hcan, hcg]
  have hrv : run_validation (load_config text) = true := by
    rw [run_validation_eq_isEmpty, hrc]
    rfl
  refine ⟨hrc, hrv, ?_⟩
  intro prog path
  simp [main_exit_code, hrv]

theorem c1_rulebook_compliant_passes_witness :
    main_exit_code ["python", "Platform.ioc"] (LoadResult.ok good_ioc) = 0 := by
  exact (c1_rulebook_compliant_passes good_ioc (by decide) (by decide) (by decide)
    (by decide) (by decide) ⟨45000000, by decide, by decide, by decide⟩
    ⟨90000000, by decide, by decide, by decide⟩ (by decide) (by decide) (by decide)
    (by decide)).2.2 "python" "Platform.ioc"

/-- Claim C2: the exit code is a function of the error list and the
failure mode only — 0 exactly when the arguments are right, the file
loads and the error list ends empty (warnings never matter); 1
exactly on a wrong argument count, a missing file, or a non-empty
error list; 2 exactly on any other unexpected exception. -/
theorem c2_exit_code_policy (argv : List String) (r : LoadResult) :
    (main_exit_code argv r = 0 ↔
       argv.length = 2 ∧ ∃ text : String, r = LoadResult.ok text ∧
         (run_checks (load_config text)).1 = []) ∧
    (main_exit_code argv r = 1 ↔
       argv.length ≠ 2 ∨ (argv.length = 2 ∧ r = LoadResult.notFound) ∨
       (argv.length = 2 ∧ ∃ text : String, r = LoadResult.ok text ∧
         (run_checks (load_config text)).1 ≠ [])) ∧
    (main_exit_code argv r = 2 ↔ argv.length = 2 ∧ r = LoadResult.unexpectedExc) := by
  by_cases hl : argv.length = 2
  · cases r with
    | ok text =>
        have hv := run_validation_eq_isEmpty (load_config text)
        by_cases he : (run_checks (load_config text)).1 = []
        · simp [main_exit_code, hl, hv, he]
        · simp [main_exit_code, hl, hv, he, List.isEmpty_iff]
    | notFound => simp [main_exit_code, hl]
    | unexpectedExc => simp [main_exit_code, hl]
  · cases r <;> simp [main_exit_code, hl]
